import Mathlib

/-!
Verification of the screensnap sidebar application.

The definitions below are a shallow embedding of the Rust sources:
`src/gui.rs` (panel animator, capture and analysis dispatchers, chat
command handling), `src/ai/local_model.rs` (Ollama client),
`src/capture/screenshot.rs` (screenshot manager) and `src/main.rs`
(URL resolution).  Machine floats of the animator are modelled over the
rationals; operating-system and HTTP effects are passed in explicitly as
environment values describing the outcome of each external call.
-/

namespace ScreenSnap

/-! ### Panel animator (`src/gui.rs`, `ScreenSnapApp::update`) -/

/-- Fixed sidebar width, `const SIDEBAR_WIDTH: f32 = 400.0` in `gui.rs`. -/
def SIDEBAR_WIDTH : ℚ := 400

/-- The animation-relevant fields of `ScreenSnapApp`: `open`, `target_x`,
`current_x`, `animation_start_x`, `animation_start_time` and
`animation_duration`, with `f32` modelled as `ℚ` and `Instant` as a
rational timestamp. -/
structure AnimState where
  isOpen : Bool
  target_x : ℚ
  current_x : ℚ
  animation_start_x : ℚ
  animation_start_time : Option ℚ
  animation_duration : ℚ
deriving Repr, DecidableEq

/-- The offset implied by window width `w` and the open flag:
`if self.open { w - SIDEBAR_WIDTH } else { w }` (`gui.rs` line 128). -/
def correctTarget (w : ℚ) (isOpen : Bool) : ℚ :=
  if isOpen then w - SIDEBAR_WIDTH else w

/-- The idle correction block of `ScreenSnapApp::update` (`gui.rs` lines
130-138): when no animation is running and either offset disagrees with
the implied offset, pin `current_x`, `target_x` and `animation_start_x`
to it. -/
def idleCorrect (w : ℚ) (s : AnimState) : AnimState :=
  match s.animation_start_time with
  | some _ => s
  | none =>
    let c := correctTarget w s.isOpen
    if s.current_x ≠ c ∨ s.target_x ≠ c then
      { s with current_x := c, target_x := c, animation_start_x := c }
    else s

/-- The animation block of `ScreenSnapApp::update` (`gui.rs` lines
140-155): advance `current_x` along the cubic ease-out curve and, when
progress reaches 1, snap to the target and stop. -/
def animStep (now : ℚ) (s : AnimState) : AnimState :=
  match s.animation_start_time with
  | none => s
  | some start =>
    let elapsed := now - start
    let progress := min (elapsed / s.animation_duration) 1
    let ease := 1 - (1 - progress) ^ 3
    let moved := { s with
      current_x := s.animation_start_x + (s.target_x - s.animation_start_x) * ease }
    if 1 ≤ progress then
      { moved with
        current_x := moved.target_x,
        animation_start_x := moved.target_x,
        animation_start_time := none }
    else moved

/-- One frame of `ScreenSnapApp::update` after layout initialisation:
the idle correction (lines 130-138) followed by the animation step
(lines 140-155), at window width `w` and frame time `now`. -/
def frameStep (w now : ℚ) (s : AnimState) : AnimState :=
  animStep now (idleCorrect w s)

/-- The handle-click toggle of `gui.rs` lines 212-225: flip `open`,
retarget for the new state, and start an animation from the current
offset at time `now`. -/
def toggleHandle (w now : ℚ) (s : AnimState) : AnimState :=
  let o := !s.isOpen
  let newTarget := if o then w - SIDEBAR_WIDTH else w
  { s with
    isOpen := o,
    target_x := newTarget,
    animation_start_x := s.current_x,
    animation_start_time := some now }

/-! ### Substring matching (Rust `str::contains`) -/

/-- Whether the first list is an initial segment of the second
(character-level model of a Rust byte-level prefix check on ASCII
needles). -/
def strLeads : List Char → List Char → Bool
  | [], _ => true
  | _ :: _, [] => false
  | a :: as, b :: bs => a == b && strLeads as bs

/-- Whether `needle` occurs contiguously inside the haystack. -/
def listHasSub (needle : List Char) : List Char → Bool
  | [] => needle.isEmpty
  | c :: rest => strLeads needle (c :: rest) || listHasSub needle rest

/-- Model of Rust `hay.contains(needle)` for the ASCII needles used by
the sources. -/
def hasSub (hay needle : String) : Bool :=
  listHasSub needle.data hay.data

/-- ASCII lowercasing of one character, the model of Rust
`to_lowercase` on the ASCII command and title strings in play. -/
def charLower (c : Char) : Char :=
  if 'A' ≤ c ∧ c ≤ 'Z' then Char.ofNat (c.toNat + 32) else c

/-- Model of Rust `str::to_lowercase` (ASCII fragment). -/
def strLower (s : String) : String :=
  String.mk (s.data.map charLower)

/-- Model of Rust `str::trim`: strip leading and trailing whitespace. -/
def strTrim (s : String) : String :=
  String.mk
    (((s.data.dropWhile Char.isWhitespace).reverse.dropWhile
        Char.isWhitespace).reverse)

/-- Model of Rust `str::starts_with`. -/
def strStarts (s pre : String) : Bool :=
  strLeads pre.data s.data

/-! ### Shared state cell (`ThreadSafeState` in `src/gui.rs`) -/

/-- An RGBA image as produced by `image::RgbaImage::from_raw`: a width,
a height and a flat sample buffer (bytes modelled as `Nat`). -/
structure RgbaImage where
  width : Nat
  height : Nat
  data : List Nat
deriving Repr, DecidableEq

/-- The shared cell `ThreadSafeState` of `gui.rs`: processing flag, last
response text, captured image bytes, and the cached texture handle
(modelled as an opaque optional tag). -/
structure SharedCell where
  processing : Bool
  ai_response : String
  image_data : List Nat
  current_image : Option Nat
deriving Repr, DecidableEq

/-! ### Screenshot manager (`src/capture/screenshot.rs`) -/

/-- The `display_info` fields of a `screenshots::Screen` consulted by
`capture_window`: position and size of the display. -/
structure DisplayInfo where
  x : Int
  y : Int
  width : Nat
  height : Nat
deriving Repr, DecidableEq

/-- A window bounding box as returned by
`window_finder::get_window_bounds`. -/
structure WinBounds where
  x : Int
  y : Int
  width : Nat
  height : Nat
deriving Repr, DecidableEq

/-- A raw capture as returned by `screen.capture()` or
`screen.capture_area(..)`: dimensions plus a flat BGRA byte buffer. -/
structure RawImg where
  width : Nat
  height : Nat
  buffer : List Nat
deriving Repr, DecidableEq

/-- Outcomes of the operating-system calls made by the screenshot
manager: `Screen::all()`, `get_window_bounds(title)`, the full-screen
`screen.capture()` and the region `screen.capture_area(x, y, w, h)`. -/
structure OsEnv where
  screens : Except String (List DisplayInfo)
  windowBounds : String → Except String WinBounds
  captureFull : Except String RawImg
  captureArea : Int → Int → Nat → Nat → Except String RawImg

/-- The BGRA to RGBA reorder loop of `screenshot.rs` (lines 41-49 and
101-109): walk the buffer in chunks of four and emit `R G B A`; a
trailing chunk shorter than four bytes is dropped. -/
def bgraToRgba : List Nat → List Nat
  | b :: g :: r :: a :: rest => r :: g :: b :: a :: bgraToRgba rest
  | _ => []

/-- `image::RgbaImage::from_raw`: succeeds when the buffer holds at
least `width * height * 4` samples. -/
def rgbaFromRaw (width height : Nat) (data : List Nat) : Option RgbaImage :=
  if width * height * 4 ≤ data.length then some ⟨width, height, data⟩ else none

/-- The mutable state of `ScreenshotManager`: its `current_image`. -/
structure Manager where
  current_image : Option RgbaImage
deriving Repr, DecidableEq

/-- `ScreenshotManager::capture_screen` (`screenshot.rs` lines 21-59):
enumerate screens, capture the first, convert BGRA to RGBA, build the
image and store it; any failure returns an error before the store. -/
def capture_screen (env : OsEnv) (mgr : Manager) :
    Except String Unit × Manager :=
  match env.screens with
  | .error e => (.error e, mgr)
  | .ok screens =>
    if screens.isEmpty then (.error "No screens found", mgr)
    else
      match env.captureFull with
      | .error e => (.error e, mgr)
      | .ok raw =>
        let rgba := bgraToRgba raw.buffer
        match rgbaFromRaw raw.width raw.height rgba with
        | none => (.error "Failed to create image from raw data", mgr)
        | some img => (.ok (), { mgr with current_image := some img })

/-- Whether a window bounding box lies inside a display, the predicate
of the `screens.iter().find(..)` call in `capture_window`
(`screenshot.rs` lines 74-80). -/
def boundsFitOn (b : WinBounds) (si : DisplayInfo) : Bool :=
  decide (si.x ≤ b.x) && decide (si.y ≤ b.y) &&
  decide (b.x + (b.width : Int) ≤ si.x + (si.width : Int)) &&
  decide (b.y + (b.height : Int) ≤ si.y + (si.height : Int))

/-- `ScreenshotManager::capture_window` (`screenshot.rs` lines 62-119):
resolve the window bounds, pick the screen containing them (or the
first screen), capture the region clamped to nonnegative coordinates,
convert and store; any failure returns an error before the store. -/
def capture_window (env : OsEnv) (title : String) (mgr : Manager) :
    Except String Unit × Manager :=
  match env.windowBounds title with
  | .error e => (.error e, mgr)
  | .ok bounds =>
    match env.screens with
    | .error e => (.error e, mgr)
    | .ok [] => (.error "No screens found", mgr)
    | .ok (s0 :: rest) =>
      let screen := ((s0 :: rest).find? (boundsFitOn bounds)).getD s0
      let captureX := bounds.x - screen.x
      let captureY := bounds.y - screen.y
      match env.captureArea (max captureX 0) (max captureY 0)
          bounds.width bounds.height with
      | .error e => (.error e, mgr)
      | .ok raw =>
        let rgba := bgraToRgba raw.buffer
        match rgbaFromRaw raw.width raw.height rgba with
        | none => (.error "Failed to create image from raw data", mgr)
        | some img => (.ok (), { mgr with current_image := some img })

/-- `ScreenshotManager::get_current_image_data` (`screenshot.rs` lines
127-136): encode the stored image to PNG bytes, or fail when no image
is stored.  The PNG serializer of the `image` crate is passed in as
`encode`. -/
def get_current_image_data (encode : RgbaImage → List Nat) (mgr : Manager) :
    Except String (List Nat) :=
  match mgr.current_image with
  | some img => .ok (encode img)
  | none => .error "No image available"

/-! ### Named-window capture dispatcher
(`ScreenSnapApp::capture_selected_window`, `gui.rs` lines 602-631) -/

/-- The body of the thread spawned by `capture_selected_window` for a
selected `title`: try the window capture; on failure fall back to a
full-screen capture; publish the PNG bytes to the shared cell (clearing
the cached texture) after whichever capture succeeded.  Returns the
manager, the cell, and the number of writes made to the cell. -/
def captureSelectedWindowTask (env : OsEnv) (title : String)
    (encode : RgbaImage → List Nat) (mgr : Manager) (cell : SharedCell) :
    Manager × SharedCell × Nat :=
  match capture_window env title mgr with
  | (.error _, mgr1) =>
    match capture_screen env mgr1 with
    | (.ok _, mgr2) =>
      match get_current_image_data encode mgr2 with
      | .ok bytes =>
        (mgr2, { cell with image_data := bytes, current_image := none }, 1)
      | .error _ => (mgr2, cell, 0)
    | (.error _, mgr2) => (mgr2, cell, 0)
  | (.ok _, mgr1) =>
    match get_current_image_data encode mgr1 with
    | .ok bytes =>
      (mgr1, { cell with image_data := bytes, current_image := none }, 1)
    | .error _ => (mgr1, cell, 0)

/-! ### Ollama client (`src/ai/local_model.rs`) -/

/-- `StatusCode::is_success` of reqwest: the status lies in 200..=299. -/
def statusIsSuccess (st : Nat) : Bool :=
  decide (200 ≤ st) && decide (st < 300)

/-- Outcome of the `GET /api/tags` exchange in `check_model_available`:
either the send itself failed with a rendered error description, or a
response arrived with a status and (when it decoded) the list of model
names under the `models` key of its JSON body. -/
inductive TagsResult where
  | unreachable (msg : String)
  | httpStatus (status : Nat) (body : Except String (List String))
deriving Repr

/-- `LocalModel::check_model_available` (`local_model.rs` lines 80-102):
a send failure propagates as an error; a non-success status yields
`Ok(false)`; otherwise the configured model name is looked up in the
decoded tag list. -/
def check_model_available (modelName : String) :
    TagsResult → Except String Bool
  | .unreachable msg => .error msg
  | .httpStatus st body =>
    if statusIsSuccess st then
      match body with
      | .error e => .error e
      | .ok models => .ok (models.contains modelName)
    else .ok false

/-- Outcome of the `POST /api/generate` exchange in `process_image`:
send timeout, other send failure (with reqwest description), or a
response carrying a status, the decode result of its JSON body as
`OllamaResponse`, and its raw text (read on the non-success path). -/
inductive GenResult where
  | sendTimeout
  | sendFailed (msg : String)
  | gotResponse (status : Nat) (decoded : Except String String) (text : String)
deriving Repr

/-- `LocalModel::process_image` (`local_model.rs` lines 106-152): first
verify model availability via `/api/tags`, then post to
`/api/generate`; a non-success status or a body that does not decode as
`{response: string}` is an error, otherwise the decoded `response`
string is returned unchanged. -/
def process_image (modelName : String) (tags : TagsResult)
    (gen : GenResult) : Except String String :=
  match check_model_available modelName tags with
  | .error e => .error e
  | .ok false =>
    .error ("Model \x27" ++ modelName ++ "\x27 not found. Pull it with: ollama pull "
      ++ modelName)
  | .ok true =>
    match gen with
    | .sendTimeout =>
      .error ("Request timed out after 5 minutes. The model might be too large "
        ++ "or your system may need more resources.")
    | .sendFailed msg => .error ("Ollama API error: " ++ msg)
    | .gotResponse st decoded text =>
      if statusIsSuccess st then
        match decoded with
        | .error e => .error e
        | .ok r => .ok r
      else .error ("Ollama API error: " ++ text)

/-! ### URL resolution (`src/main.rs` and `src/ai/local_model.rs`) -/

/-- `get_ollama_url` (`main.rs` lines 210-214 and `gui.rs` lines
872-876): an explicit argument wins, else the `OLLAMA_HOST` environment
variable (modelled as an optional value), else the default. -/
def get_ollama_url (urlArg : Option String) (envOllamaHost : Option String) :
    String :=
  match urlArg with
  | some u => u
  | none =>
    match envOllamaHost with
    | some v => v
    | none => "http://localhost:11434"

/-- The URL resolution inside `LocalModel::new` (`local_model.rs` line
36): `env::var("OLLAMA_HOST").unwrap_or_else(|_| default)`. -/
def localModelUrl (envOllamaHost : Option String) : String :=
  match envOllamaHost with
  | some v => v
  | none => "http://localhost:11434"

/-! ### Analysis dispatcher (`ScreenSnapApp::analyze_image` and
`ScreenSnapApp::analyze_with_prompt`, `gui.rs` lines 633-683 and
770-821) -/

/-- The failure text built in the `Err(e)` arm of the analysis threads
(`gui.rs` lines 661-668 and 799-806): render the failure, then append a
remediation hint chosen by substring-matching the description. -/
def failureText (modelName e : String) : String :=
  let base := "AI processing failed: " ++ e
  if hasSub e "not found" then
    base ++ "\n\nTo fix: ollama pull " ++ modelName
  else if hasSub e "not available" || hasSub e "connection refused" then
    base ++ "\n\nEnsure Ollama is running: ollama serve"
  else base

/-- The body of the thread spawned by `analyze_image` (`gui.rs` lines
651-682): on `LocalModel::new` failure publish the init-failure text,
otherwise publish the `process_image` result or its rendered failure
with hint; in every case clear `processing` at the end. -/
def analyzeTaskBody (modelName : String) (initRes : Except String Unit)
    (tags : TagsResult) (gen : GenResult) (cell : SharedCell) : SharedCell :=
  let c1 :=
    match initRes with
    | .error e =>
      { cell with ai_response :=
          ("Failed to init Ollama model: " ++ e ++ "\n\n"
            ++ "Is Ollama running? Is model pulled?") }
    | .ok _ =>
      match process_image modelName tags gen with
      | .ok r => { cell with ai_response := r }
      | .error e => { cell with ai_response := failureText modelName e }
  { c1 with processing := false }

/-- The synchronous prefix of `analyze_image` (`gui.rs` lines 633-650):
with no captured bytes, write the capture-first message and spawn
nothing; otherwise mark processing, write the progress message and
spawn the task.  The boolean reports whether a task was spawned. -/
def analyzeImageSync (cell : SharedCell) : SharedCell × Bool :=
  if cell.image_data.isEmpty then
    ({ cell with ai_response := "Please capture an image first." }, false)
  else
    ({ cell with processing := true, ai_response := "Processing image..." }, true)

/-- The synchronous prefix of `analyze_with_prompt` (`gui.rs` lines
770-787), analogous to `analyzeImageSync` with its own messages. -/
def analyzeWithPromptSync (cell : SharedCell) : SharedCell × Bool :=
  if cell.image_data.isEmpty then
    ({ cell with ai_response := "Please capture an image for prompt analysis." },
      false)
  else
    ({ cell with processing := true, ai_response := "Processing with your prompt..." }, true)

/-! ### Command interpreter (`ScreenSnapApp::handle_user_input`,
`gui.rs` lines 685-768) -/

/-- Split a character list at the first space, the model of Rust
`input.splitn(2, ' ')`: the part before the first space, and the rest
after it when a space exists. -/
def breakAtSpace : List Char → List Char × Option (List Char)
  | [] => ([], none)
  | c :: rest =>
    if c == ' ' then ([], some rest)
    else
      let (a, b) := breakAtSpace rest
      (c :: a, b)

/-- String-level wrapper of `breakAtSpace`. -/
def splitFirstSpace (s : String) : String × Option String :=
  let p := breakAtSpace s.data
  (String.mk p.1, p.2.map String.mk)

/-- The GUI-side application fields touched by `handle_user_input`:
the cached window list, the selected window, the model name and the
chat history (message texts). -/
structure AppSt where
  windowList : List String
  selectedWindow : Option String
  modelName : String
  chatHistory : List String
deriving Repr, DecidableEq

/-- The effect of one `handle_user_input` call: the updated application
fields and shared cell, plus which background work was spawned
(`capture_full_screen`, `capture_selected_window`, or an analysis
thread). -/
structure HandleResult where
  app : AppSt
  cell : SharedCell
  spawnFull : Bool
  spawnWindow : Bool
  spawnAnalyze : Bool
deriving Repr, DecidableEq

/-- The window-list refresh performed by `/window` (`gui.rs` lines
695-698): a successful `get_window_titles()` replaces the cached list,
a failure keeps it. -/
def refreshedList (titlesEnv : Except String (List String))
    (old : List String) : List String :=
  match titlesEnv with
  | .ok l => l
  | .error _ => old

/-- The `/help` response text of `gui.rs` lines 743-749. -/
def helpText : String :=
  "Available commands:\n/capture - Capture full screen\n/window [name] - Capture a specific window (or part of name)\n/model [name] - Change AI model (e.g., /model llava:latest)\n/analyze - Analyze current image with default prompt\n/clear - Clear chat history and current image\n/help - Show this help message"

/-- `ScreenSnapApp::handle_user_input` (`gui.rs` lines 685-768).  The
outcome of the `get_window_titles()` refresh performed by `/window` is
passed in as `titlesEnv`.  Command dispatch computes a result and a
`response_text`; a nonempty `response_text` is written to the cell at
the end.  A non-command line is an analysis prompt. -/
def handle_user_input (titlesEnv : Except String (List String)) (st : AppSt)
    (cell : SharedCell) (input : String) : HandleResult :=
  if strStarts input "/" then
    let p := splitFirstSpace input
    let command := strLower p.1
    let argOpt := p.2
    let noSpawn : HandleResult := ⟨st, cell, false, false, false⟩
    let step : HandleResult × String :=
      if command = "/capture" then ({ noSpawn with spawnFull := true }, "")
      else if command = "/window" then
        let st1 := { st with windowList := refreshedList titlesEnv st.windowList }
        match argOpt with
        | some rawArg =>
          let windowName := strTrim rawArg
          match st1.windowList.find?
              (fun w => hasSub (strLower w) (strLower windowName)) with
          | some w =>
            (⟨{ st1 with selectedWindow := some w }, cell, false, true, false⟩, "")
          | none =>
            (⟨{ st1 with selectedWindow := some windowName }, cell, false, true, false⟩, "")
        | none =>
          ({ noSpawn with app := st1 },
            "Please specify a window name or part of it after /window (e.g., /window firefox)")
      else if command = "/model" then
        match argOpt with
        | some rawArg =>
          let m := strTrim rawArg
          ({ noSpawn with app := { st with modelName := m } }, "Model set to: " ++ m)
        | none =>
          (noSpawn, "Current model: " ++ st.modelName ++ ". Usage: /model <model_name>")
      else if command = "/analyze" then
        if cell.image_data.isEmpty then
          (noSpawn, "Please capture an image first using /capture or /window.")
        else
          let q := analyzeImageSync cell
          ({ noSpawn with cell := q.1, spawnAnalyze := q.2 }, "")
      else if command = "/clear" then
        ({ noSpawn with
            app := { st with chatHistory := [] },
            cell := { cell with current_image := none, image_data := [], ai_response := "" } },
          "Chat history and image cleared.")
      else if command = "/help" then (noSpawn, helpText)
      else
        (noSpawn, "Unknown command: " ++ command ++ ". Type /help for available commands.")
    if step.2 = "" then step.1
    else { step.1 with cell := { step.1.cell with ai_response := step.2 } }
  else
    if cell.image_data.isEmpty then
      ⟨st,
        { cell with ai_response := "Please capture an image first before sending a prompt." },
        false, false, false⟩
    else
      let q := analyzeWithPromptSync cell
      ⟨st, q.1, false, false, q.2⟩

/-! ### Theorems -/

/-- C1: after a toggle, every frame moves the current offset along the
cubic ease-out curve from its value at toggle time, and once progress
reaches 1 the offset is set exactly to the target of the newly
requested state, with the animation stopped. -/
theorem toggle_animates_cubic_ease_out_to_target (s : AnimState)
    (w tNow tFrame : ℚ) :
    (toggleHandle w tNow s).animation_start_x = s.current_x
    ∧ (frameStep w tFrame (toggleHandle w tNow s)).current_x
        = (toggleHandle w tNow s).animation_start_x
          + ((toggleHandle w tNow s).target_x
              - (toggleHandle w tNow s).animation_start_x)
            * (1 - (1 - min ((tFrame - tNow)
                / (toggleHandle w tNow s).animation_duration) 1) ^ 3)
    ∧ (1 ≤ min ((tFrame - tNow) / (toggleHandle w tNow s).animation_duration) 1 →
        (frameStep w tFrame (toggleHandle w tNow s)).current_x
            = (toggleHandle w tNow s).target_x
        ∧ (frameStep w tFrame (toggleHandle w tNow s)).animation_start_time = none
        ∧ (toggleHandle w tNow s).target_x
            = correctTarget w (toggleHandle w tNow s).isOpen) := by
  set t := toggleHandle w tNow s with ht
  have htime : t.animation_start_time = some tNow := rfl
  have hidle : idleCorrect w t = t := by
    unfold idleCorrect
    rw [htime]
  set progress := min ((tFrame - tNow) / t.animation_duration) 1 with hprog
  have hple : progress ≤ 1 := min_le_right _ _
  refine ⟨rfl, ?_, ?_⟩
  · unfold frameStep
    rw [hidle]
    unfold animStep
    rw [htime]
    by_cases h : (1 : ℚ) ≤ progress
    · have hp1 : progress = 1 := le_antisymm hple h
      simp only [← hprog, hp1, if_pos le_rfl]
      ring
    · simp only [← hprog, if_neg h]
  · intro h
    unfold frameStep
    rw [hidle]
    unfold animStep
    rw [htime]
    simp only [← hprog, if_pos h]
    refine ⟨trivial, trivial, ?_⟩
    rw [ht]
    unfold toggleHandle correctTarget
    cases s.isOpen <;> rfl

/-- C1 witness state: a closed panel at rest at offset 420. -/
def animWitnessState : AnimState :=
  ⟨false, 420, 420, 420, none, 3/10⟩

/-- C1 witness: instantiated at a concrete toggle, with the completion
hypothesis discharged at a frame one second after the toggle. -/
theorem toggle_animates_cubic_ease_out_to_target_witness :
    (frameStep 420 1 (toggleHandle 420 0 animWitnessState)).current_x
        = (toggleHandle 420 0 animWitnessState).target_x
    ∧ (frameStep 420 1 (toggleHandle 420 0 animWitnessState)).animation_start_time
        = none
    ∧ (toggleHandle 420 0 animWitnessState).target_x
        = correctTarget 420 (toggleHandle 420 0 animWitnessState).isOpen :=
  (toggle_animates_cubic_ease_out_to_target animWitnessState 420 0 1).2.2
    (by norm_num [toggleHandle, animWitnessState])

/-- C2: when no animation is running and either offset disagrees with
the offset implied by the window width and open state, one frame pins
both the current and target offsets to the implied offset and starts no
animation. -/
theorem idle_resize_repins (s : AnimState) (w now : ℚ)
    (hidle : s.animation_start_time = none)
    (hmis : s.current_x ≠ correctTarget w s.isOpen
      ∨ s.target_x ≠ correctTarget w s.isOpen) :
    (frameStep w now s).current_x = correctTarget w s.isOpen
    ∧ (frameStep w now s).target_x = correctTarget w s.isOpen
    ∧ (frameStep w now s).animation_start_time = none := by
  have hc : (idleCorrect w s).current_x = correctTarget w s.isOpen
      ∧ (idleCorrect w s).target_x = correctTarget w s.isOpen
      ∧ (idleCorrect w s).animation_start_time = none := by
    simp only [idleCorrect, hidle]
    rw [if_pos hmis]
    exact ⟨rfl, rfl, rfl⟩
  unfold frameStep animStep
  rw [hc.2.2]
  exact hc

/-- C2 witness: a concrete idle state whose offsets disagree with the
implied offset after a resize to width 500. -/
theorem idle_resize_repins_witness :
    (frameStep 500 7 animWitnessState).current_x
        = correctTarget 500 animWitnessState.isOpen
    ∧ (frameStep 500 7 animWitnessState).target_x
        = correctTarget 500 animWitnessState.isOpen
    ∧ (frameStep 500 7 animWitnessState).animation_start_time = none :=
  idle_resize_repins animWitnessState 500 7 rfl
    (Or.inl (by norm_num [animWitnessState, correctTarget, SIDEBAR_WIDTH]))

/-- Helper: a 200 tags response that decodes reduces the availability
check to membership of the configured model in the tag list. -/
theorem check_tags_200 (modelName : String) (models : List String) :
    check_model_available modelName (.httpStatus 200 (.ok models))
      = .ok (models.contains modelName) := rfl

/-- C5: on a successful status with a body decoding to `{response: X}`,
`process_image` returns exactly `X`; a non-2xx status or a body that
does not decode is a failure. -/
theorem process_image_returns_response_verbatim
    (modelName X errText text2 e2 : String) (models : List String)
    (st st2 : Nat) (body2 : Except String String)
    (hm : models.contains modelName = true)
    (hst : statusIsSuccess st = true)
    (hst2 : statusIsSuccess st2 = false) :
    process_image modelName (.httpStatus 200 (.ok models))
        (.gotResponse st (.ok X) errText) = .ok X
    ∧ (process_image modelName (.httpStatus 200 (.ok models))
        (.gotResponse st2 body2 text2)
          = .error ("Ollama API error: " ++ text2))
    ∧ (process_image modelName (.httpStatus 200 (.ok models))
        (.gotResponse st (.error e2) errText) = .error e2) := by
  unfold process_image
  rw [check_tags_200, hm]
  refine ⟨?_, ?_, ?_⟩ <;> simp [hst, hst2]

/-- C5 witness: the distinguished model listed, a 200 response decoding
to a concrete string, a 500 response, and an undecodable body. -/
theorem process_image_returns_response_verbatim_witness :
    process_image "llava:latest" (.httpStatus 200 (.ok ["llava:latest"]))
        (.gotResponse 200 (.ok "A blue desktop.") "") = .ok "A blue desktop."
    ∧ (process_image "llava:latest" (.httpStatus 200 (.ok ["llava:latest"]))
        (.gotResponse 500 (.ok "x") "boom")
          = .error ("Ollama API error: " ++ "boom"))
    ∧ (process_image "llava:latest" (.httpStatus 200 (.ok ["llava:latest"]))
        (.gotResponse 200 (.error "bad json") "") = .error "bad json") :=
  process_image_returns_response_verbatim "llava:latest" "A blue desktop." ""
    "boom" "bad json" ["llava:latest"] 200 500 (.ok "x")
    (by decide) (by decide) (by decide)

/-- C6 counterexample: an unreachable endpoint whose rendered failure
description is the realistic capitalized rendering publishes a result
text with no hint referencing starting the service, because the
substring check of `gui.rs` line 666 is case-sensitive; so the
unconditional serve-hint claim fails (processing still ends false). -/
theorem unreachable_endpoint_capitalized_gets_no_hint :
    hasSub (analyzeTaskBody "llava:latest" (.ok ())
        (.unreachable "Connection refused (os error 111)") .sendTimeout
        ⟨false, "", [], none⟩).ai_response "ollama serve" = false
    ∧ (analyzeTaskBody "llava:latest" (.ok ())
        (.unreachable "Connection refused (os error 111)") .sendTimeout
        ⟨false, "", [], none⟩).processing = false := by decide

/-- C6 (amended): the analysis task body always ends with
`processing = false` and an overwritten result text that does not
depend on the previous cell contents; an unreachable-endpoint failure
carries the serve hint exactly when its rendered description contains
the lowercase substring "connection refused" (and not "not found"),
while a description lacking all the matched lowercase substrings is
published with no hint appended. -/
theorem analysis_task_completes_and_hints_serve
    (modelName msg noHintMsg : String) (initRes : Except String Unit)
    (tags : TagsResult) (gen : GenResult) (cell cellB : SharedCell)
    (h1 : hasSub msg "not found" = false)
    (h2 : hasSub msg "connection refused" = true)
    (h3 : hasSub noHintMsg "not found" = false)
    (h4 : hasSub noHintMsg "not available" = false)
    (h5 : hasSub noHintMsg "connection refused" = false) :
    (analyzeTaskBody modelName initRes tags gen cell).processing = false
    ∧ (analyzeTaskBody modelName initRes tags gen cell).ai_response
        = (analyzeTaskBody modelName initRes tags gen cellB).ai_response
    ∧ (analyzeTaskBody modelName (.ok ()) (.unreachable msg) gen cell).ai_response
        = "AI processing failed: " ++ msg
            ++ "\n\nEnsure Ollama is running: ollama serve"
    ∧ (analyzeTaskBody modelName (.ok ()) (.unreachable noHintMsg) gen
          cell).ai_response
        = "AI processing failed: " ++ noHintMsg := by
  refine ⟨rfl, ?_, ?_, ?_⟩
  · unfold analyzeTaskBody
    cases initRes with
    | error e => rfl
    | ok u => cases process_image modelName tags gen <;> rfl
  · unfold analyzeTaskBody process_image check_model_available failureText
    simp [h1, h2]
  · unfold analyzeTaskBody process_image check_model_available failureText
    simp [h3, h4, h5]

/-- C6 witness cell: an untouched shared cell. -/
def emptyCell : SharedCell := ⟨false, "", [], none⟩

/-- C6 witness: instantiated with an unreachable endpoint whose rendered
description is the literal lowercase connection-refused phrase, and a
hintless description in the capitalized OS rendering. -/
theorem analysis_task_completes_and_hints_serve_witness :
    (analyzeTaskBody "llava:latest" (.ok ()) (.unreachable "connection refused")
        .sendTimeout emptyCell).processing = false
    ∧ (analyzeTaskBody "llava:latest" (.ok ())
          (.unreachable "connection refused") .sendTimeout emptyCell).ai_response
        = (analyzeTaskBody "llava:latest" (.ok ())
            (.unreachable "connection refused") .sendTimeout
            ⟨true, "old", [1], some 0⟩).ai_response
    ∧ (analyzeTaskBody "llava:latest" (.ok ())
          (.unreachable "connection refused") .sendTimeout emptyCell).ai_response
        = "AI processing failed: " ++ "connection refused"
            ++ "\n\nEnsure Ollama is running: ollama serve"
    ∧ (analyzeTaskBody "llava:latest" (.ok ())
          (.unreachable "Connection refused (os error 111)") .sendTimeout
          emptyCell).ai_response
        = "AI processing failed: " ++ "Connection refused (os error 111)" :=
  analysis_task_completes_and_hints_serve "llava:latest" "connection refused"
    "Connection refused (os error 111)" (.ok ())
    (.unreachable "connection refused") .sendTimeout emptyCell
    ⟨true, "old", [1], some 0⟩ (by decide) (by decide) (by decide) (by decide)
    (by decide)

/-- C7: failed analyses render the failure plus a hint chosen by
substring matching — a description containing "not found" yields the
pull hint, one containing "not available" or "connection refused"
yields the serve hint — and `process_image` itself fails with the
not-found pull-suggestion message when the configured model is not in
the tag list. -/
theorem failure_hints_by_substring_and_missing_model
    (modelName d1 d2 : String) (models : List String) (gen : GenResult)
    (h1 : hasSub d1 "not found" = true)
    (h2a : hasSub d2 "not found" = false)
    (h2b : (hasSub d2 "not available" || hasSub d2 "connection refused") = true)
    (hm : models.contains modelName = false) :
    failureText modelName d1
      = "AI processing failed: " ++ d1 ++ "\n\nTo fix: ollama pull " ++ modelName
    ∧ failureText modelName d2
      = "AI processing failed: " ++ d2 ++ "\n\nEnsure Ollama is running: ollama serve"
    ∧ process_image modelName (.httpStatus 200 (.ok models)) gen
      = .error ("Model \x27" ++ modelName ++ "\x27 not found. Pull it with: ollama pull "
          ++ modelName) := by
  refine ⟨?_, ?_, ?_⟩
  · unfold failureText
    simp [h1]
  · unfold failureText
    simp [h2a, h2b]
  · unfold process_image
    rw [check_tags_200, hm]

/-- C7 witness: a not-found description, a connection-refused
description, and an empty tag list missing the configured model. -/
theorem failure_hints_by_substring_and_missing_model_witness :
    failureText "llava:latest" "Model not found"
      = "AI processing failed: " ++ "Model not found"
          ++ "\n\nTo fix: ollama pull " ++ "llava:latest"
    ∧ failureText "llava:latest" "connection refused"
      = "AI processing failed: " ++ "connection refused"
          ++ "\n\nEnsure Ollama is running: ollama serve"
    ∧ process_image "llava:latest" (.httpStatus 200 (.ok [])) .sendTimeout
      = .error ("Model \x27" ++ "llava:latest"
          ++ "\x27 not found. Pull it with: ollama pull " ++ "llava:latest") :=
  failure_hints_by_substring_and_missing_model "llava:latest" "Model not found"
    "connection refused" [] .sendTimeout (by decide) (by decide) (by decide)
    (by decide)

/-- C8: the inference base URL resolution prefers an explicit argument,
then the `OLLAMA_HOST` environment variable, then the default; the
resolution inside `LocalModel::new` agrees with the argument-free
case. -/
theorem ollama_url_resolution (u v : String) (env : Option String) :
    get_ollama_url (some u) env = u
    ∧ get_ollama_url none (some v) = v
    ∧ get_ollama_url none none = "http://localhost:11434"
    ∧ localModelUrl env = get_ollama_url none env :=
  ⟨rfl, rfl, rfl, by cases env <;> rfl⟩

/-- Helper: a failing `capture_screen` leaves the stored image alone. -/
theorem capture_screen_err_keeps (env : OsEnv) (mgr : Manager)
    (e : String) (h : (capture_screen env mgr).1 = .error e) :
    (capture_screen env mgr).2.current_image = mgr.current_image := by
  unfold capture_screen at h ⊢
  split at h
  all_goals try simp_all
  all_goals split at h
  all_goals try simp_all
  all_goals split at h
  all_goals try simp_all
  all_goals split at h
  all_goals simp_all

/-- Helper: a failing `capture_window` leaves the stored image alone. -/
theorem capture_window_err_keeps (env : OsEnv) (title : String) (mgr : Manager)
    (e : String) (h : (capture_window env title mgr).1 = .error e) :
    (capture_window env title mgr).2.current_image = mgr.current_image := by
  unfold capture_window at h ⊢
  split at h
  all_goals try simp_all
  all_goals split at h
  all_goals try simp_all
  all_goals split at h
  all_goals try simp_all
  all_goals split at h
  all_goals simp_all

/-- Helper: a successful `capture_screen` has stored an image. -/
theorem capture_screen_ok_stores (env : OsEnv) (mgr : Manager)
    (h : (capture_screen env mgr).1 = .ok ()) :
    ∃ img, (capture_screen env mgr).2.current_image = some img := by
  unfold capture_screen at h ⊢
  split at h
  all_goals try simp_all
  all_goals split at h
  all_goals try simp_all
  all_goals split at h
  all_goals try simp_all
  all_goals split at h
  all_goals simp_all

/-- Helper: a successful `capture_window` has stored an image. -/
theorem capture_window_ok_stores (env : OsEnv) (title : String) (mgr : Manager)
    (h : (capture_window env title mgr).1 = .ok ()) :
    ∃ img, (capture_window env title mgr).2.current_image = some img := by
  unfold capture_window at h ⊢
  split at h
  all_goals try simp_all
  all_goals split at h
  all_goals try simp_all
  all_goals split at h
  all_goals try simp_all
  all_goals split at h
  all_goals simp_all

/-- C9: a failing capture call never changes the stored current image;
it is replaced only on success. -/
theorem failed_capture_preserves_stored_image (env : OsEnv) (title : String)
    (mgr : Manager) :
    (∀ e, (capture_screen env mgr).1 = .error e →
      (capture_screen env mgr).2.current_image = mgr.current_image)
    ∧ (∀ e, (capture_window env title mgr).1 = .error e →
      (capture_window env title mgr).2.current_image = mgr.current_image) :=
  ⟨fun e h => capture_screen_err_keeps env mgr e h,
   fun e h => capture_window_err_keeps env title mgr e h⟩

/-- An environment in which every operating-system call fails. -/
def allFailEnv : OsEnv :=
  ⟨.error "no screens", fun _ => .error "window not found",
    .error "capture failed", fun _ _ _ _ => .error "capture failed"⟩

/-- A manager already holding a one-pixel image. -/
def mgrWithImage : Manager := ⟨some ⟨1, 1, [30, 20, 10, 40]⟩⟩

/-- C9 witness: failing captures on a manager that already holds an
image leave that image in place. -/
theorem failed_capture_preserves_stored_image_witness :
    (capture_screen allFailEnv mgrWithImage).2.current_image
        = mgrWithImage.current_image
    ∧ (capture_window allFailEnv "Firefox" mgrWithImage).2.current_image
        = mgrWithImage.current_image :=
  ⟨(failed_capture_preserves_stored_image allFailEnv "Firefox" mgrWithImage).1
      "no screens" rfl,
   (failed_capture_preserves_stored_image allFailEnv "Firefox" mgrWithImage).2
      "window not found" rfl⟩

/-- Whether an `Except` value is an error. -/
def isErr {α : Type} : Except String α → Bool
  | .error _ => true
  | .ok _ => false

/-- C3: the named-window capture dispatcher falls back to a full-screen
capture on failure, writes the shared cell exactly once (with the PNG
bytes of the newly stored image, resetting the texture handle) whenever
either capture succeeded, and leaves the cell completely untouched only
when both captures failed. -/
theorem named_window_capture_falls_back_single_write (env : OsEnv)
    (title : String) (encode : RgbaImage → List Nat) (mgr : Manager)
    (cell : SharedCell) :
    ((isErr (capture_window env title mgr).1 = true ∧
      isErr (capture_screen env (capture_window env title mgr).2).1 = true) →
      (captureSelectedWindowTask env title encode mgr cell).2.1 = cell
      ∧ (captureSelectedWindowTask env title encode mgr cell).2.2 = 0)
    ∧ (¬(isErr (capture_window env title mgr).1 = true ∧
        isErr (capture_screen env (capture_window env title mgr).2).1 = true) →
      (captureSelectedWindowTask env title encode mgr cell).2.2 = 1
      ∧ (captureSelectedWindowTask env title encode mgr cell).2.1.current_image = none
      ∧ (captureSelectedWindowTask env title encode mgr cell).2.1.processing
          = cell.processing
      ∧ (captureSelectedWindowTask env title encode mgr cell).2.1.ai_response
          = cell.ai_response
      ∧ ∃ img,
          (captureSelectedWindowTask env title encode mgr cell).1.current_image
            = some img
          ∧ (captureSelectedWindowTask env title encode mgr cell).2.1.image_data
            = encode img) := by
  constructor
  · rintro ⟨h1, h2⟩
    unfold captureSelectedWindowTask
    rcases hw : capture_window env title mgr with ⟨r1, mgr1⟩
    rw [hw] at h1 h2
    cases r1 with
    | ok u => simp [isErr] at h1
    | error e1 =>
      rcases hs : capture_screen env mgr1 with ⟨r2, mgr2⟩
      rw [hs] at h2
      cases r2 with
      | ok u => simp [isErr] at h2
      | error e2 => simp [hw, hs]
  · intro hno
    unfold captureSelectedWindowTask
    rcases hw : capture_window env title mgr with ⟨r1, mgr1⟩
    cases r1 with
    | ok u =>
      cases u
      obtain ⟨img, himg⟩ := capture_window_ok_stores env title mgr (by rw [hw])
      rw [hw] at himg
      simp only [] at himg
      simp only [hw, get_current_image_data, himg]
      refine ⟨?_, ?_, ?_, ?_, img, ?_, ?_⟩ <;> simp [himg]
    | error e1 =>
      rcases hs : capture_screen env mgr1 with ⟨r2, mgr2⟩
      cases r2 with
      | error e2 =>
        exfalso
        exact hno ⟨by simp [hw, isErr], by simp [hw, hs, isErr]⟩
      | ok u =>
        cases u
        obtain ⟨img, himg⟩ := capture_screen_ok_stores env mgr1 (by rw [hs])
        rw [hs] at himg
        simp only [] at himg
        simp only [hw, hs, get_current_image_data, himg]
        refine ⟨?_, ?_, ?_, ?_, img, ?_, ?_⟩ <;> simp [himg]

/-- An environment in which the window lookup fails but the full-screen
capture succeeds with a one-pixel BGRA frame. -/
def fallbackEnv : OsEnv :=
  ⟨.ok [⟨0, 0, 1, 1⟩], fun _ => .error "window not found",
    .ok ⟨1, 1, [10, 20, 30, 40]⟩, fun _ _ _ _ => .error "capture failed"⟩

/-- C3 witness: with no matching window and a working screen, the task
performs exactly one write, clears the texture handle and leaves the
other fields alone; and with every call failing, the cell is untouched. -/
theorem named_window_capture_falls_back_single_write_witness :
    ((captureSelectedWindowTask fallbackEnv "Firefox" RgbaImage.data
        ⟨none⟩ emptyCell).2.2 = 1
      ∧ (captureSelectedWindowTask fallbackEnv "Firefox" RgbaImage.data
          ⟨none⟩ emptyCell).2.1.current_image = none
      ∧ (captureSelectedWindowTask fallbackEnv "Firefox" RgbaImage.data
          ⟨none⟩ emptyCell).2.1.processing = emptyCell.processing
      ∧ (captureSelectedWindowTask fallbackEnv "Firefox" RgbaImage.data
          ⟨none⟩ emptyCell).2.1.ai_response = emptyCell.ai_response
      ∧ ∃ img, (captureSelectedWindowTask fallbackEnv "Firefox" RgbaImage.data
            ⟨none⟩ emptyCell).1.current_image = some img
          ∧ (captureSelectedWindowTask fallbackEnv "Firefox" RgbaImage.data
              ⟨none⟩ emptyCell).2.1.image_data = img.data)
    ∧ ((captureSelectedWindowTask allFailEnv "Firefox" RgbaImage.data
        ⟨none⟩ emptyCell).2.1 = emptyCell
      ∧ (captureSelectedWindowTask allFailEnv "Firefox" RgbaImage.data
          ⟨none⟩ emptyCell).2.2 = 0) :=
  ⟨(named_window_capture_falls_back_single_write fallbackEnv "Firefox"
      RgbaImage.data ⟨none⟩ emptyCell).2 (by decide),
   (named_window_capture_falls_back_single_write allFailEnv "Firefox"
      RgbaImage.data ⟨none⟩ emptyCell).1 (by decide)⟩

/-- C4 counterexample: with empty captured bytes, the `/analyze` command
and the Analyze-button path (`analyze_image`) publish different
capture-first messages, so the message is not the same fixed string
across entry points. -/
theorem capture_first_message_not_uniform :
    (handle_user_input (.ok []) ⟨[], none, "llava:latest", []⟩ emptyCell
        "/analyze").cell.ai_response
      ≠ (analyzeImageSync emptyCell).1.ai_response := by decide

/-- C4 (amended): with empty captured bytes, no entry point spawns a
task or sets the processing flag, and each writes a fixed capture-first
message — but the wording differs per entry point (button, `/analyze`
command, plain typed prompt). -/
theorem empty_image_guard_no_spawn (cell : SharedCell) (st : AppSt)
    (titlesEnv : Except String (List String)) (prompt : String)
    (hempty : cell.image_data = [])
    (hp : strStarts prompt "/" = false) :
    analyzeImageSync cell
        = ({ cell with ai_response := "Please capture an image first." }, false)
    ∧ handle_user_input titlesEnv st cell "/analyze"
        = ⟨st, { cell with ai_response := "Please capture an image first using /capture or /window." },
            false, false, false⟩
    ∧ handle_user_input titlesEnv st cell prompt
        = ⟨st, { cell with ai_response := "Please capture an image first before sending a prompt." },
            false, false, false⟩ := by
  obtain ⟨p, a, d, t⟩ := cell
  simp only at hempty
  subst hempty
  refine ⟨rfl, rfl, ?_⟩
  simp [handle_user_input, hp]

/-- C4 witness application state. -/
def plainApp : AppSt := ⟨[], none, "llava:latest", []⟩

/-- C4 witness: the three entry points at the empty cell and a concrete
non-command prompt. -/
theorem empty_image_guard_no_spawn_witness :
    analyzeImageSync emptyCell
        = ({ emptyCell with ai_response := "Please capture an image first." }, false)
    ∧ handle_user_input (.ok []) plainApp emptyCell "/analyze"
        = ⟨plainApp, { emptyCell with ai_response := "Please capture an image first using /capture or /window." },
            false, false, false⟩
    ∧ handle_user_input (.ok []) plainApp emptyCell "describe this"
        = ⟨plainApp, { emptyCell with ai_response := "Please capture an image first before sending a prompt." },
            false, false, false⟩ :=
  empty_image_guard_no_spawn emptyCell plainApp (.ok []) "describe this"
    rfl (by decide)

/-- C10: a `/window name` command whose trimmed argument matches no
title in the freshly refreshed window list (case-insensitively) still
sets the selected window to the raw argument and spawns the
named-window capture, writing no message to the cell; only a bare
`/window` produces the usage message without spawning anything. -/
theorem window_command_unmatched_uses_raw_argument
    (titlesEnv : Except String (List String)) (st : AppSt) (cell : SharedCell)
    (input c0 rawArg : String)
    (hstart : strStarts input "/" = true)
    (hsplit : splitFirstSpace input = (c0, some rawArg))
    (hcmd : strLower c0 = "/window")
    (hfind : ∀ w ∈ refreshedList titlesEnv st.windowList,
        hasSub (strLower w) (strLower (strTrim rawArg)) = false) :
    (handle_user_input titlesEnv st cell input).app.selectedWindow
        = some (strTrim rawArg)
    ∧ (handle_user_input titlesEnv st cell input).spawnWindow = true
    ∧ (handle_user_input titlesEnv st cell input).cell = cell
    ∧ (∀ input2 c2, strStarts input2 "/" = true →
        splitFirstSpace input2 = (c2, none) → strLower c2 = "/window" →
        (handle_user_input titlesEnv st cell input2).cell.ai_response
          = "Please specify a window name or part of it after /window (e.g., /window firefox)"
        ∧ (handle_user_input titlesEnv st cell input2).spawnWindow = false
        ∧ (handle_user_input titlesEnv st cell input2).spawnFull = false
        ∧ (handle_user_input titlesEnv st cell input2).spawnAnalyze = false) := by
  have hf : (refreshedList titlesEnv st.windowList).find?
      (fun w => hasSub (strLower w) (strLower (strTrim rawArg))) = none := by
    apply List.find?_eq_none.mpr
    intro w hw
    simp [hfind w hw]
  have key : handle_user_input titlesEnv st cell input = HandleResult.mk { st with windowList := refreshedList titlesEnv st.windowList, selectedWindow := some (strTrim rawArg) } cell false true false := by
    unfold handle_user_input
    rw [hstart]
    simp only [if_true]
    rw [hsplit]
    simp only [hcmd]
    simp [hf]
  refine ⟨by rw [key], by rw [key], by rw [key], ?_⟩
  intro input2 c2 h1 h2 h3
  have key2 : handle_user_input titlesEnv st cell input2 = HandleResult.mk { st with windowList := refreshedList titlesEnv st.windowList } { cell with ai_response := "Please specify a window name or part of it after /window (e.g., /window firefox)" } false false false := by
    unfold handle_user_input
    rw [h1]
    simp only [if_true]
    rw [h2]
    simp only [h3]
    simp
  rw [key2]
  exact ⟨rfl, rfl, rfl, rfl⟩

/-- C10 witness application state. -/
def windowApp : AppSt := ⟨["Console"], none, "llava:latest", []⟩

/-- C10 witness: a refreshed list holding only "Terminal" and the
argument "ghostwin", which matches nothing, plus the bare `/window`
case. -/
theorem window_command_unmatched_uses_raw_argument_witness :
    (handle_user_input (.ok ["Terminal"]) windowApp emptyCell
        "/window ghostwin").app.selectedWindow = some (strTrim "ghostwin")
    ∧ (handle_user_input (.ok ["Terminal"]) windowApp emptyCell
        "/window ghostwin").spawnWindow = true
    ∧ (handle_user_input (.ok ["Terminal"]) windowApp emptyCell
        "/window ghostwin").cell = emptyCell
    ∧ (handle_user_input (.ok ["Terminal"]) windowApp emptyCell
        "/window").cell.ai_response
      = "Please specify a window name or part of it after /window (e.g., /window firefox)"
    ∧ (handle_user_input (.ok ["Terminal"]) windowApp emptyCell
        "/window").spawnWindow = false :=
  let h := window_command_unmatched_uses_raw_argument (.ok ["Terminal"])
    windowApp emptyCell "/window ghostwin" "/window" "ghostwin"
    (by decide) (by decide) (by decide) (by decide)
  let h2 := h.2.2.2 "/window" "/window" (by decide) (by decide) (by decide)
  ⟨h.1, h.2.1, h.2.2.1, h2.1, h2.2.1⟩

end ScreenSnap
